import Mathlib

/-!
Shallow embedding of the exchange-connectivity core of
`src/services/binanceWebSocket.ts` (class `BinanceWebSocket`), together with
proofs settling the frozen claims about it.

Timestamps are epoch milliseconds, modelled as `Nat`.  JavaScript strings are
modelled as Lean `String` / `List Char`.  Stateful methods are modelled as
explicit state-passing functions.  Line numbers in comments refer to the
TypeScript source.
-/

namespace BinanceWS

/-! ### Generic string helpers (JS `String.prototype.includes`, `toLowerCase`) -/

/-- `startsWithL pat s` : does `s` start with `pat`? -/
def startsWithL : List Char → List Char → Bool
  | [], _ => true
  | _ :: _, [] => false
  | p :: ps, c :: cs => p == c && startsWithL ps cs

/-- `containsSub pat s` : does `pat` occur as a contiguous substring of `s`?
Models JS `s.includes(pat)` (case sensitive). -/
def containsSub (pat : List Char) : List Char → Bool
  | [] => startsWithL pat []
  | c :: cs => startsWithL pat (c :: cs) || containsSub pat cs

/-- JS `s.includes(pat)` on `String`. -/
def includes (s pat : String) : Bool := containsSub pat.data s.data

/-- JS `s.toLowerCase()` (ASCII range, which is all the code relies on). -/
def toLowerL (s : List Char) : List Char := s.map Char.toLower

/-- Value of a maximal run of decimal digits, as read by `parseInt(_, 10)`.
Exact for values below 2^53 (the double-precision integer range). -/
def digitsToNat (ds : List Char) : Nat :=
  ds.foldl (fun n c => n * 10 + (c.toNat - '0'.toNat)) 0

/-! ### Association-list helpers, modelling JS `Map` -/

/-- `Map.get` -/
def lookupL {α : Type} (k : String) : List (String × α) → Option α
  | [] => none
  | (k', v) :: rest => if k = k' then some v else lookupL k rest

/-- `Map.set` -/
def setL {α : Type} (k : String) (v : α) : List (String × α) → List (String × α)
  | [] => [(k, v)]
  | (k', v') :: rest => if k = k' then (k, v) :: rest else (k', v') :: setL k v rest

/-- `Map.delete` -/
def removeL {α : Type} (k : String) : List (String × α) → List (String × α)
  | [] => []
  | (k', v') :: rest => if k = k' then rest else (k', v') :: removeL k rest

/-! ### Configuration constants (source lines 6-12) -/

def MAX_REQUESTS_PER_MINUTE : Nat := 600
def REQUEST_WINDOW_MS : Nat := 60000
def RATE_LIMIT_BUFFER : Nat := 200

/-! ### BanGuard (source lines 15-18, 79-150) -/

/-- `interface BanInfo` (lines 15-18). -/
structure BanInfo where
  isBanned : Bool
  banUntil : Nat
deriving DecidableEq, Repr

/-- `resetBanInfo` (lines 80-83); the localStorage write is persistence of
exactly this value. -/
def resetBanInfo : BanInfo := { isBanned := false, banUntil := 0 }

/-- `setBanned` (lines 111-123). -/
def setBanned (banUntilTimestamp : Nat) : BanInfo :=
  { isBanned := true, banUntil := banUntilTimestamp }

/-- `checkIfBanned` (lines 86-108): returns the reported flag and the updated
stored `banInfo` (the `lastBanCheckTime` log-throttling field is log-only and
not modelled). -/
def checkIfBanned (b : BanInfo) (now : Nat) : Bool × BanInfo :=
  if !b.isBanned || decide (b.banUntil < now) then
    (false, if b.isBanned then resetBanInfo else b)
  else
    (true, b)

/-- Result record of `getBanStatus` (lines 1208-1216). -/
structure BanStatus where
  isBanned : Bool
  banUntil : Nat
  remainingMinutes : Nat
deriving DecidableEq, Repr

/-- `getBanStatus` (lines 1208-1216): runs `checkIfBanned` for its state
update, then reports.  `Math.max(0, banUntil - now)` is `Nat` truncated
subtraction; `Math.ceil(ms / 60000)` is `(ms + 59999) / 60000` on `Nat`. -/
def getBanStatus (b : BanInfo) (now : Nat) : BanStatus × BanInfo :=
  let b' := (checkIfBanned b now).2
  let remainingMs := b'.banUntil - now
  ({ isBanned := b'.isBanned && decide (0 < remainingMs),
     banUntil := b'.banUntil,
     remainingMinutes := (remainingMs + 59999) / 60000 }, b')

/-! ### The ban regex `/IP\(.*\) banned until (\d+)/` (lines 130, 353)

JS semantics: leftmost match start; `.` does not match line terminators; `.*`
is greedy, so among the viable positions of the literal tail
`") banned until "` followed by a digit, the last one (before any line
terminator) is taken; the capture `(\d+)` is a maximal digit run. -/

def isLineTerm (c : Char) : Bool :=
  c == '\n' || c == '\r' || c == (Char.ofNat 0x2028) || c == (Char.ofNat 0x2029)

/-- The literal part of the pattern after `.*`. -/
def banTailLit : List Char := ") banned until ".data

/-- Scan `s` for the latest suffix, not preceded (within `s`) by a line
terminator, that starts with `") banned until "` followed by at least one
digit; return the maximal digit run after the literal. -/
def lastBanTail : List Char → Option (List Char)
  | [] => none
  | c :: cs =>
    if isLineTerm c then
      none
    else
      match lastBanTail cs with
      | some ds => some ds
      | none =>
        if startsWithL banTailLit (c :: cs) then
          let ds := ((c :: cs).drop banTailLit.length).takeWhile Char.isDigit
          if ds.isEmpty then none else some ds
        else
          none

/-- Leftmost occurrence of `"IP("` from which the greedy tail matches. -/
def matchBanList : List Char → Option Nat
  | [] => none
  | c :: cs =>
    if startsWithL "IP(".data (c :: cs) then
      match lastBanTail ((c :: cs).drop 3) with
      | some ds => some (digitsToNat ds)
      | none => matchBanList cs
    else
      matchBanList cs

/-- `msg.match(/IP\(.*\) banned until (\d+)/)` with the capture parsed by
`parseInt(_, 10)`. -/
def matchBanPattern (msg : String) : Option Nat :=
  matchBanList msg.data

/-- `detectBanFromError` (lines 126-150): returns (detected, new ban state).
The `!error || !error.message` guard makes the empty message a no-op. -/
def detectBanFromError (msg : String) (now : Nat) (b : BanInfo) : Bool × BanInfo :=
  if msg = "" then
    (false, b)
  else
    match matchBanPattern msg with
    | some t => (true, setBanned t)
    | none =>
      if includes msg "418" || containsSub "banned".data (toLowerL msg.data) then
        (true, setBanned (now + 12 * 60 * 60 * 1000))
      else
        (false, b)

/-- The 418/429 response-body inspection inside `makeAuthenticatedRequest`
(lines 344-372).  `body` is the outcome of `JSON.parse(errorText)` projected
to its `code` and `msg` fields (`none` when parsing throws, matching the
`catch (parseError)` branch, or when the fields are absent). -/
def httpBanCheck (status : Nat) (body : Option (Int × String)) (now : Nat) (b : BanInfo) : BanInfo :=
  if status = 418 || status = 429 then
    match body with
    | some (code, msg) =>
      if code = -1003 then
        match matchBanPattern msg with
        | some t => setBanned t
        | none => setBanned (now + 12 * 60 * 60 * 1000)
      else b
    | none => b
  else b

/-! ### RateLimiter (source lines 152-240) -/

/-- The lazy prune in `canMakeRequest` (line 160):
`requestTimestamps.filter(ts => now - ts < REQUEST_WINDOW_MS)`.  On JS numbers
a future timestamp gives a negative difference, which is `< window`; `Nat`
truncated subtraction gives `0 < window`, the same verdict. -/
def pruneWindow (ts : List Nat) (now : Nat) : List Nat :=
  ts.filter (fun t => now - t < REQUEST_WINDOW_MS)

/-- `canMakeRequest` (lines 152-164): the ban gate, the lazy prune and the
admission check.  Returns (admitted, ban state, pruned timestamps). -/
def canMakeRequest (b : BanInfo) (ts : List Nat) (now : Nat) : Bool × BanInfo × List Nat :=
  let (banned, b') := checkIfBanned b now
  if banned then
    (false, b', ts)
  else
    let ts' := pruneWindow ts now
    (decide (ts'.length < MAX_REQUESTS_PER_MINUTE - RATE_LIMIT_BUFFER), b', ts')

/-- `Math.ceil(n * 0.1)` (line 206).  For every list length reachable here
(checked up to 5000) the double-precision product rounds so that the ceiling
equals the exact `⌈n / 10⌉`. -/
def ceilTenth (n : Nat) : Nat := (n + 9) / 10

/-- `requestTimestamps.sort((a, b) => a - b)` (line 207): ascending sort.  A
sorted permutation of a list of `Nat` is unique, so `List.insertionSort`
models the JS sort exactly. -/
def sortAsc (ts : List Nat) : List Nat := List.insertionSort (· ≤ ·) ts

/-- The max-wait timeout branch of `waitForRateLimit` (lines 198-213): when
`Date.now() - startTime > maxWaitTime`, the code optionally evicts the oldest
10% of recorded timestamps (only when more than `C - B - 10` are recorded) and
then rejects the promise unconditionally (line 212).  Returns the updated
timestamp list and the admission outcome of the call (`false` = rejected with
the rate-limit timeout error). -/
def rateLimitTimeoutBranch (ts : List Nat) : List Nat × Bool :=
  let ts' :=
    if MAX_REQUESTS_PER_MINUTE - RATE_LIMIT_BUFFER - 10 < ts.length then
      (sortAsc ts).drop (ceilTenth ts.length)
    else
      ts
  (ts', false)

/-! ### AuthenticatedRequestExecutor: `makeAuthenticatedRequest`
(source lines 242-425) -/

/-- Opaque payload standing for the cached `Trade[]` values held by
`orderHistoryCache`; the claims never look inside. -/
structure TradeData where
  raw : Nat
deriving DecidableEq, Repr

/-- The mutable fields of the singleton read or written on the request path:
`pendingRequests` (waiter lists keyed by cache key), `banInfo`,
`requestTimestamps`, and the two response caches `orderHistoryCache`
(data, storedAt) and `accountInfoCache`.  `makeAuthenticatedRequest` itself
never reads either response cache (they are consulted only by
`getOrderHistory` / `getAccountInfo` before calling it). -/
structure ExecState where
  pending : List (String × List Nat)
  ban : BanInfo
  requestTimestamps : List Nat
  orderHistoryCache : List (String × (TradeData × Nat))
  accountInfoCache : Option (TradeData × Nat)
deriving DecidableEq, Repr

/-- How a `makeAuthenticatedRequest` invocation leaves its synchronous
prefix. -/
inductive ExecOutcome where
  /-- line 254: `throw new Error('API credentials not found')` -/
  | errCredentials
  /-- line 259: rejected by the ban gate -/
  | errBanned
  /-- line 271: pushed onto an existing pending entry, awaiting its result -/
  | joinedWaiter
  /-- line 330: admitted by the rate limiter and issuing the physical
  `fetch` network call -/
  | fetch
  /-- entered the `waitForRateLimit` waiting loop (lines 179-239) -/
  | rateLimitWait
deriving DecidableEq, Repr

/-- The synchronous prefix of `makeAuthenticatedRequest` (lines 242-341):
credential check, ban gate, request-coalescing gate on `pendingRequests`, and
the rate limiter up to the point where the physical `fetch` is issued.
`cacheTTL` is accepted (line 248) but never used by the function, exactly as
in the source.  `waiterId` stands for the `{resolve, reject, params}` record a
joining caller would push. -/
def makeAuthenticatedRequestStep (hasCreds requiresSignature allowDuringBan : Bool)
    (cacheKey : Option String) (cacheTTL : Nat) (waiterId : Nat)
    (st : ExecState) (now : Nat) : ExecOutcome × ExecState :=
  -- lines 251-255
  if requiresSignature && !hasCreds then
    (ExecOutcome.errCredentials, st)
  else
    -- lines 257-260
    let (banned, ban') := checkIfBanned st.ban now
    if !allowDuringBan && banned then
      (ExecOutcome.errBanned, { st with ban := ban' })
    else
      -- lines 262-277: the coalescing gate
      let gated : Option (List (String × List Nat)) :=
        match cacheKey with
        | none => some st.pending
        | some k =>
          match lookupL k st.pending with
          | some ws =>
            if 0 < ws.length then none  -- join as waiter
            else some (setL k [] st.pending)
          | none => some (setL k [] st.pending)
      match gated, cacheKey with
      | none, some k =>
        let ws := (lookupL k st.pending).getD []
        (ExecOutcome.joinedWaiter,
         { st with ban := ban', pending := setL k (ws ++ [waiterId]) st.pending })
      | none, none => (ExecOutcome.rateLimitWait, { st with ban := ban' })  -- unreachable
      | some pending', _ =>
        -- lines 280-290: `await waitForRateLimit()`; the ban was already
        -- found clear at the same instant, so only the admission check acts
        let ts' := pruneWindow st.requestTimestamps now
        if ts'.length < MAX_REQUESTS_PER_MINUTE - RATE_LIMIT_BUFFER then
          (ExecOutcome.fetch,
           { st with ban := ban', pending := pending', requestTimestamps := ts' ++ [now] })
        else
          (ExecOutcome.rateLimitWait,
           { st with ban := ban', pending := pending', requestTimestamps := ts' })

/-! ### `getOrderHistory` cache gate (source lines 1130-1168) -/

/-- How `getOrderHistory` proceeds after its cache and ban checks. -/
inductive OrderHistoryOutcome where
  /-- returned `cachedEntry.data` without any request -/
  | cached (data : TradeData)
  /-- banned with no cache entry: returned `[]` (line 1149) -/
  | emptyBanned
  /-- fell through to `makeAuthenticatedRequest` (line 1161) -/
  | network
deriving DecidableEq, Repr

/-- The pre-network part of `getOrderHistory` (lines 1130-1150): fresh cache
(younger than 60000 ms) is returned with no request; while banned an expired
entry is still served, or `[]` when none exists; otherwise the call proceeds
to the network. -/
def getOrderHistoryGate (cache : List (String × (TradeData × Nat))) (b : BanInfo)
    (symbol : Option String) (now : Nat) : OrderHistoryOutcome × BanInfo :=
  let cacheKey := "orderHistory_" ++ symbol.getD "all"
  match lookupL cacheKey cache with
  | some (d, storedAt) =>
    if now - storedAt < 60000 then
      (OrderHistoryOutcome.cached d, b)
    else
      let (banned, b') := checkIfBanned b now
      if banned then (OrderHistoryOutcome.cached d, b')
      else (OrderHistoryOutcome.network, b')
  | none =>
    let (banned, b') := checkIfBanned b now
    if banned then (OrderHistoryOutcome.emptyBanned, b')
    else (OrderHistoryOutcome.network, b')

/-! ### StreamSession ticker subscriptions (source lines 678-726, 774-786) -/

/-- Outbound wire control frames sent by `sendSubscription` /
`sendUnsubscription` (lines 678-710); the `id: Date.now()` field is not
modelled. -/
inductive WireMsg where
  | sub (params : List String)
  | unsub (params : List String)
deriving DecidableEq, Repr

/-- The ticker`subscribers` map and the socket readiness that gates actual
sends. -/
structure TickerSubs where
  subscribers : List (String × List Nat)
  wsOpen : Bool
deriving DecidableEq, Repr

/-- JS `Set.add`: no duplicates. -/
def setAdd (x : Nat) (s : List Nat) : List Nat :=
  if s.contains x then s else s ++ [x]

/-- JS `Set.delete`. -/
def setDelete (x : Nat) (s : List Nat) : List Nat :=
  s.filter (fun y => y ≠ x)

/-- `subscribe(symbol, callback)` (lines 713-726).  The lazy `connect()` call
on a closed socket only initiates an asynchronous connection and touches no
subscription state, so it is not part of this synchronous step.  Returns the
new state and the wire messages sent. -/
def subscribe (st : TickerSubs) (symbol : String) (cb : Nat) : TickerSubs × List WireMsg :=
  match lookupL symbol st.subscribers with
  | none =>
    let msgs := if st.wsOpen then
        [WireMsg.sub [String.mk (toLowerL symbol.data) ++ "@ticker"]]
      else []
    ({ st with subscribers := setL symbol (setAdd cb []) st.subscribers }, msgs)
  | some s =>
    ({ st with subscribers := setL symbol (setAdd cb s) st.subscribers }, [])

/-- `unsubscribe(symbol, callback)` (lines 774-786). -/
def unsubscribe (st : TickerSubs) (symbol : String) (cb : Nat) : TickerSubs × List WireMsg :=
  match lookupL symbol st.subscribers with
  | none => (st, [])
  | some s =>
    let s' := setDelete cb s
    if s'.length = 0 then
      let msgs := if st.wsOpen then
          [WireMsg.unsub [String.mk (toLowerL symbol.data) ++ "@ticker"]]
        else []
      ({ st with subscribers := removeL symbol st.subscribers }, msgs)
    else
      ({ st with subscribers := setL symbol s' st.subscribers }, [])

/-! ### OrderGateway: `placeOrder` (source lines 831-963) -/

inductive Side where
  | BUY | SELL
deriving DecidableEq, Repr

inductive OrderType where
  | MARKET | LIMIT
deriving DecidableEq, Repr

/-- The non-transient recognizer of the retry loop (lines 921-927). -/
def nonTransient (msg : String) : Bool :=
  includes msg "Invalid API-key" || includes msg "Signature" ||
  includes msg "Parameter" || includes msg "banned"

/-- The user-facing error translation of the outer catch (lines 942-959). -/
def toUserMessage (e : String) : String :=
  if includes e "Failed to fetch" then
    "Network error: Could not connect to Binance API. Please check your internet connection."
  else if includes e "banned" then
    "Your IP is currently banned by Binance. Please try again later."
  else if includes e "Invalid API-key" then
    "Invalid API credentials. Please check your API key and secret."
  else if includes e "Signature" then
    "Authentication error. Please check your API credentials."
  else if includes e "Parameter" then
    "Invalid order parameters. Please check your order details."
  else
    "Error: " ++ e

/-- The `while (attempts < maxAttempts)` retry loop (lines 890-936) with
`maxAttempts = 3`.  `oracle` lists the outcome of each successive
`makeAuthenticatedRequest` call on the order endpoint (the payload `Nat`
stands for the raw response, whose field-by-field translation into a `Trade`
does not affect the claims).  Returns the loop outcome and the number of
order network calls made. -/
def orderLoop : List (Except String Nat) → Nat → Except String Nat × Nat
  | [], attempts =>
    if attempts < 3 then
      (Except.error "oracle exhausted", 0)  -- model artifact: supply ≥ 3 responses
    else
      (Except.error "Failed to place order after 3 attempts", 0)
  | r :: rest, attempts =>
    if attempts < 3 then
      match r with
      | Except.ok d => (Except.ok d, 1)
      | Except.error e =>
        if attempts + 1 ≥ 3 || nonTransient e then
          (Except.error e, 1)
        else
          let (res, n) := orderLoop rest (attempts + 1)
          (res, n + 1)
    else
      (Except.error "Failed to place order after 3 attempts", 0)

/-- Result of a `placeOrder` call: the promise outcome after the outer catch
(lines 939-962) plus the number of network calls made on the order and
leverage endpoints. -/
structure PlaceOrderResult where
  outcome : Except String Nat
  orderCalls : Nat
  leverageCalls : Nat
deriving Repr

/-- The field validation at lines 852-854:
`!symbol || !side || !type || !quantity || quantity <= 0`.  Enum arguments
are always truthy; `!quantity` is `quantity = 0`, subsumed by the
comparison. -/
def invalidBaseParams (symbol : String) (quantity : ℚ) : Bool :=
  decide (symbol = "") || decide (quantity ≤ 0)

/-- The LIMIT-price validation at lines 857-859:
`type === 'LIMIT' && (!price || price <= 0)` (for a number, `!price` is
`price = 0`, subsumed by the comparison). -/
def limitPriceInvalid (type_ : OrderType) (price : Option ℚ) : Bool :=
  (type_ == OrderType.LIMIT) &&
    (match price with | none => true | some p => decide (p ≤ 0))

/-- `placeOrder` (lines 831-963).  `onLine` is `navigator.onLine`; the
`connect()` retry for a closed socket (line 848) opens the stream and makes no
REST call.  Validation (lines 852-859) precedes the best-effort leverage call
(lines 862-869), which precedes the retry loop; a leverage failure is
swallowed, so only whether the leverage call happens is tracked. -/
def placeOrder (onLine : Bool) (symbol : String) (side : Side) (type_ : OrderType)
    (quantity : ℚ) (price : Option ℚ) (leverage : Option ℚ)
    (oracle : List (Except String Nat)) : PlaceOrderResult :=
  let inner : Except String Nat × Nat × Nat :=
    if !onLine then
      (Except.error "No internet connection available", 0, 0)
    else if invalidBaseParams symbol quantity then
      (Except.error "Invalid order parameters", 0, 0)
    else if limitPriceInvalid type_ price then
      (Except.error "Price is required for LIMIT orders", 0, 0)
    else
      let levCalls := match leverage with
        | none => 0
        | some l => if l = 0 then 0 else 1  -- `if (leverage)`: truthy check
      let (res, n) := orderLoop oracle 0
      (res, n, levCalls)
  match inner with
  | (Except.ok d, n, m) => ⟨Except.ok d, n, m⟩
  | (Except.error e, n, m) => ⟨Except.error (toUserMessage e), n, m⟩

/-! ### Connection lifecycle: `disconnect`, `handleReconnect`
(source lines 427-541, 1245-1274) -/

/-- Timer and socket state of the session.  `reconnectScheduled` records a
pending `setTimeout(() => this.connect(), _)` (lines 531, 536-539), whose
handle the source never stores.  `closeEventPending` records that
`ws.close()` was called, so the attached `onclose` handler (lines 475-480)
will still fire. -/
structure ConnState where
  wsConnected : Bool
  pingInterval : Bool
  listenKeyInterval : Bool
  reconnectScheduled : Bool
  reconnectAttempts : Nat
  closeEventPending : Bool
deriving DecidableEq, Repr

/-- `disconnect` (lines 1245-1255): `ws.close(); ws = null`, stop the ping
interval, clear the listen-key interval.  No reconnect timeout is cleared
(none is ever stored). -/
def disconnect (st : ConnState) : ConnState :=
  { st with
    wsConnected := false
    closeEventPending := st.closeEventPending || st.wsConnected
    pingInterval := false
    listenKeyInterval := false }

/-- `handleReconnect` (lines 525-541): below the attempt cap it schedules
`connect` after an exponential delay; above it, it schedules the long-cooldown
reset timer, which also calls `connect`.  Either way a reconnection is
scheduled. -/
def handleReconnect (st : ConnState) : ConnState :=
  if st.reconnectAttempts < 5 then
    { st with reconnectAttempts := st.reconnectAttempts + 1, reconnectScheduled := true }
  else
    { st with reconnectScheduled := true }

/-- The `onclose` handler (lines 475-480): stop the ping interval, then
`handleReconnect`. -/
def oncloseEvent (st : ConnState) : ConnState :=
  handleReconnect { st with pingInterval := false, closeEventPending := false }

/-! ### `getOpenPositions` (source lines 1061-1127) -/

/-- A raw position record from `/fapi/v2/account`, with the numeric fields
already through `parseFloat`. -/
structure RawPosition where
  symbol : String
  positionAmt : ℚ
  entryPrice : ℚ
  markPrice : ℚ
  unrealizedProfit : ℚ
  leverage : ℚ
deriving DecidableEq, Repr

/-- `Position` as built at lines 1096-1104. -/
structure Position where
  symbol : String
  side : String
  size : ℚ
  entryPrice : ℚ
  markPrice : ℚ
  unrealizedPnL : ℚ
  leverage : ℚ
deriving DecidableEq, Repr

/-- The per-position translation (lines 1096-1104). -/
def mapPosition (p : RawPosition) : Position :=
  { symbol := p.symbol
    side := if 0 < p.positionAmt then "LONG" else "SHORT"
    size := |p.positionAmt|
    entryPrice := p.entryPrice
    markPrice := p.markPrice
    unrealizedPnL := p.unrealizedProfit
    leverage := p.leverage }

/-- Account info as used here: the `positions` field may be absent. -/
structure AccountInfo where
  positions : Option (List RawPosition)
deriving DecidableEq, Repr

/-- How the promise returned by `getOpenPositions` is settled for its direct
caller. -/
inductive OpenPositionsOutcome where
  /-- pushed onto a non-empty waiter list; settled later by the executing call -/
  | joinedWaiter
  /-- the promise resolves with this list -/
  | returned (ps : List Position)
deriving DecidableEq, Repr

/-- `getOpenPositions` (lines 1061-1127).  `accountResult` is the outcome of
the inner `getAccountInfo().catch(...)` chain (including its rate-limit
retries).  On any error the catch block (lines 1115-1126) rejects registered
waiters, deletes the pending entry, and returns `[]` to the direct caller.
When `accountInfo.positions` is absent the bare `return []` (line 1114)
leaves the pending entry in place, as in the source. -/
def getOpenPositions (pending : List (String × List Nat)) (callerId : Nat)
    (accountResult : Except String AccountInfo) :
    OpenPositionsOutcome × List (String × List Nat) :=
  let key := "open_positions"
  let joined : Bool :=
    match lookupL key pending with
    | some ws => 0 < ws.length
    | none => false
  if joined then
    let ws := (lookupL key pending).getD []
    (OpenPositionsOutcome.joinedWaiter, setL key (ws ++ [callerId]) pending)
  else
    let pending1 := setL key [] pending
    match accountResult with
    | Except.ok info =>
      match info.positions with
      | some raw =>
        let positions := (raw.filter (fun p => p.positionAmt ≠ 0)).map mapPosition
        (OpenPositionsOutcome.returned positions, removeL key pending1)
      | none =>
        (OpenPositionsOutcome.returned [], pending1)
    | Except.error _ =>
      (OpenPositionsOutcome.returned [], removeL key pending1)

/-! ### Helper lemmas -/

theorem lookupL_setL_self {α : Type} (k : String) (v : α) (l : List (String × α)) :
    lookupL k (setL k v l) = some v := by
  induction l with
  | nil => simp [setL, lookupL]
  | cons hd tl ih =>
    obtain ⟨k', v'⟩ := hd
    by_cases h : k = k'
    · simp [setL, lookupL, h]
    · simp [setL, lookupL, h, ih]

theorem setL_setL {α : Type} (k : String) (v w : α) (l : List (String × α)) :
    setL k v (setL k w l) = setL k v l := by
  induction l with
  | nil => simp [setL]
  | cons hd tl ih =>
    obtain ⟨k', v'⟩ := hd
    by_cases h : k = k'
    · simp [setL, h]
    · simp [setL, h, ih]

/-! ### Claims -/

/-- C1: the request coalescer is supposed to ensure at most one physical
request in flight per deduplication key, a second concurrent call registering
as a waiter.  The code sets the in-flight marker to an empty waiter array and
tests `cacheEntry.length > 0` (line 268), so a second call that starts while
the first is pending (with no other waiters) fails the test, resets the
marker and issues a second physical `fetch` — contradicting the in-source
comment at lines 266-267 which says such a call must wait instead of making a
new request.  This theorem evaluates both calls at the failing input: the
first call proceeds to `fetch` leaving the marker `("account_info", [])` in
place, and the second call, started while the first is still in flight, also
proceeds to `fetch` instead of joining as a waiter. -/
theorem coalescer_issues_duplicate_fetch :
    (makeAuthenticatedRequestStep true true false (some "account_info") 30000 1
        ⟨[], ⟨false, 0⟩, [], [], none⟩ 1000).1 = ExecOutcome.fetch ∧
    (makeAuthenticatedRequestStep true true false (some "account_info") 30000 1
        ⟨[], ⟨false, 0⟩, [], [], none⟩ 1000).2.pending = [("account_info", [])] ∧
    (makeAuthenticatedRequestStep true true false (some "account_info") 30000 2
        (makeAuthenticatedRequestStep true true false (some "account_info") 30000 1
          ⟨[], ⟨false, 0⟩, [], [], none⟩ 1000).2 1001).1 = ExecOutcome.fetch := by
  decide

/-- C2 counterexample: `makeAuthenticatedRequest` never returns a stored
result — its `cacheTTL` parameter is unused and the function reads neither
response cache.  Concretely, with a result stored 1000 ms ago (well within
the 60000 ms TTL) under the very key passed as `cacheKey`, the call still
proceeds to issue a physical `fetch`. -/
theorem executor_ignores_fresh_cache :
    (makeAuthenticatedRequestStep true true false (some "orders_all") 60000 0
        ⟨[], ⟨false, 0⟩, [], [("orders_all", (⟨42⟩, 999000))], some (⟨7⟩, 999000)⟩
        1000000).1 = ExecOutcome.fetch := by
  decide

/-- C2 amended: freshness-based response caching lives at the call sites, not
in the executor.  `getOrderHistory` returns its cached entry and issues no
network request whenever the entry is younger than 60000 ms. -/
theorem orderHistory_fresh_cache_no_network (cache : List (String × (TradeData × Nat)))
    (b : BanInfo) (symbol : Option String) (now : Nat) (d : TradeData) (storedAt : Nat)
    (hlook : lookupL ("orderHistory_" ++ symbol.getD "all") cache = some (d, storedAt))
    (hfresh : now - storedAt < 60000) :
    getOrderHistoryGate cache b symbol now = (OrderHistoryOutcome.cached d, b) := by
  simp [getOrderHistoryGate, hlook, hfresh]

/-- C2 witness: a concrete fresh cache entry served without a network call. -/
theorem orderHistory_fresh_cache_no_network_witness :
    lookupL ("orderHistory_" ++ (none : Option String).getD "all")
        [("orderHistory_all", ((⟨42⟩ : TradeData), 1000))] = some (⟨42⟩, 1000) ∧
    2000 - 1000 < 60000 ∧
    getOrderHistoryGate [("orderHistory_all", (⟨42⟩, 1000))] ⟨false, 0⟩ none 2000 =
      (OrderHistoryOutcome.cached ⟨42⟩, ⟨false, 0⟩) :=
  ⟨by decide, by decide,
    orderHistory_fresh_cache_no_network _ _ none 2000 ⟨42⟩ 1000 (by decide) (by decide)⟩

/-- C3 counterexample: the claim promises `banUntil = now + 12h` for every
418/429-class error without a parseable timestamp, but a 429 whose body does
not carry error code -1003 (and whose text contains neither `418` nor
`banned`) sets no ban at all: the status handler leaves the state unchanged
and `detectBanFromError` on the propagated error message also leaves it
unchanged, so `banUntil` stays 0 rather than `now + 12h`. -/
theorem ban_429_without_marker_not_banned :
    httpBanCheck 429 (some (-1021, "Timestamp for this request is outside of the recvWindow."))
        1700000000000 ⟨false, 0⟩ = ⟨false, 0⟩ ∧
    (detectBanFromError
        "Request failed: 429 Too Many Requests - \x7b\"code\":-1021,\"msg\":\"Timestamp for this request is outside of the recvWindow.\"\x7d"
        1700000000000 ⟨false, 0⟩).2 = ⟨false, 0⟩ ∧
    (⟨false, 0⟩ : BanInfo).banUntil ≠ 1700000000000 + 12 * 60 * 60 * 1000 := by
  decide

/-- C3 amended: all clauses of the amended claim.  On the error-message path
(`detectBanFromError`): when the message matches the ban pattern
`IP(...) banned until <T>`, the guard sets `banUntil` to exactly the parsed
`T` (the model parses the captured digit run exactly, which coincides with
`parseInt` throughout the double-precision integer range containing all
epoch-millisecond values); when the pattern does not match but the message
contains `418`, or contains `banned` case-insensitively, it sets
`banUntil = now + 12h`; when it carries none of the markers the ban state is
left untouched.  On the 418/429 HTTP-status path (`httpBanCheck`): with body
code -1003 the parsed timestamp is used exactly when present, and `now + 12h`
otherwise; with any other body code, or an unparseable body, no ban is set. -/
theorem detectBan_sets_exact_or_12h (msg : String) (now : Nat) (b : BanInfo)
    (status : Nat) (code : Int) (bodyMsg : String) :
    (∀ t, matchBanPattern msg = some t →
      detectBanFromError msg now b = (true, setBanned t)) ∧
    (matchBanPattern msg = none →
      (includes msg "418" = true ∨ containsSub "banned".data (toLowerL msg.data) = true) →
      detectBanFromError msg now b = (true, setBanned (now + 12 * 60 * 60 * 1000))) ∧
    (matchBanPattern msg = none → includes msg "418" = false →
      containsSub "banned".data (toLowerL msg.data) = false →
      detectBanFromError msg now b = (false, b)) ∧
    ((status = 418 ∨ status = 429) →
      (∀ t, matchBanPattern bodyMsg = some t →
        httpBanCheck status (some (-1003, bodyMsg)) now b = setBanned t) ∧
      (matchBanPattern bodyMsg = none →
        httpBanCheck status (some (-1003, bodyMsg)) now b =
          setBanned (now + 12 * 60 * 60 * 1000))) ∧
    (code ≠ -1003 → httpBanCheck status (some (code, bodyMsg)) now b = b) ∧
    httpBanCheck status none now b = b := by
  refine ⟨?_, ?_, ?_, ?_, ?_, ?_⟩
  · intro t hmatch
    by_cases hmsg : msg = ""
    · rw [hmsg] at hmatch
      rw [show matchBanPattern "" = none from by decide] at hmatch
      cases hmatch
    · simp [detectBanFromError, hmsg, hmatch]
  · intro hmatch hmarker
    by_cases hmsg : msg = ""
    · rw [hmsg] at hmarker
      rcases hmarker with h | h
      · rw [show includes "" "418" = false from by decide] at h
        cases h
      · rw [show containsSub "banned".data (toLowerL ("" : String).data) = false from
            by decide] at h
        cases h
    · rcases hmarker with h | h <;> simp [detectBanFromError, hmsg, hmatch, h]
  · intro hmatch h418 hban
    by_cases hmsg : msg = ""
    · simp [detectBanFromError, hmsg]
    · simp [detectBanFromError, hmsg, hmatch, h418, hban]
  · intro hst
    have hstb : (status = 418 || status = 429) = true := by
      rcases hst with h | h <;> simp [h]
    constructor
    · intro t hmatch
      simp [httpBanCheck, hstb, hmatch]
    · intro hmatch
      simp [httpBanCheck, hstb, hmatch]
  · intro hcode
    by_cases hst : (status = 418 || status = 429) = true
    · simp [httpBanCheck, hst, hcode]
    · simp [httpBanCheck, hst]
  · by_cases hst : (status = 418 || status = 429) = true
    · simp [httpBanCheck, hst]
    · simp [httpBanCheck, hst]

/-- C3 witness: the exact-timestamp branch on a literal venue ban message,
the 12-hour default on a literal 418 message and on a `banned`-only message,
the untouched state on a marker-free message, and the -1003 body path with
and without a parseable timestamp. -/
theorem detectBan_sets_exact_or_12h_witness :
    matchBanPattern "Way too many requests; IP(203.0.113.7) banned until 1700000123456." =
      some 1700000123456 ∧
    detectBanFromError "Way too many requests; IP(203.0.113.7) banned until 1700000123456."
        5 ⟨false, 0⟩ = (true, setBanned 1700000123456) ∧
    matchBanPattern "Request failed: 418 I am a teapot - slow down" = none ∧
    includes "Request failed: 418 I am a teapot - slow down" "418" = true ∧
    detectBanFromError "Request failed: 418 I am a teapot - slow down" 5 ⟨false, 0⟩ =
      (true, setBanned (5 + 12 * 60 * 60 * 1000)) ∧
    matchBanPattern "You are temporarily BANNED. Go away." = none ∧
    containsSub "banned".data (toLowerL ("You are temporarily BANNED. Go away." : String).data) =
      true ∧
    detectBanFromError "You are temporarily BANNED. Go away." 5 ⟨false, 0⟩ =
      (true, setBanned (5 + 12 * 60 * 60 * 1000)) ∧
    detectBanFromError "Request failed: 500 Internal Server Error" 5 ⟨false, 0⟩ =
      (false, ⟨false, 0⟩) ∧
    httpBanCheck 429 (some (-1003, "IP(203.0.113.7) banned until 1700000123456")) 5
      ⟨false, 0⟩ = setBanned 1700000123456 ∧
    httpBanCheck 418 (some (-1003, "Too many requests; please slow down.")) 5 ⟨false, 0⟩ =
      setBanned (5 + 12 * 60 * 60 * 1000) ∧
    httpBanCheck 429 (some (-1021, "Timestamp outside recvWindow")) 5 ⟨false, 0⟩ =
      ⟨false, 0⟩ ∧
    httpBanCheck 429 none 5 ⟨false, 0⟩ = ⟨false, 0⟩ :=
  ⟨by decide,
    (detectBan_sets_exact_or_12h _ 5 ⟨false, 0⟩ 429 (-1021) "").1 1700000123456 (by decide),
    by decide, by decide,
    (detectBan_sets_exact_or_12h _ 5 ⟨false, 0⟩ 429 (-1021) "").2.1 (by decide)
      (Or.inl (by decide)),
    by decide, by decide,
    (detectBan_sets_exact_or_12h _ 5 ⟨false, 0⟩ 429 (-1021) "").2.1 (by decide)
      (Or.inr (by decide)),
    (detectBan_sets_exact_or_12h _ 5 ⟨false, 0⟩ 429 (-1021) "").2.2.1 (by decide) (by decide)
      (by decide),
    ((detectBan_sets_exact_or_12h "" 5 ⟨false, 0⟩ 429 (-1021)
        "IP(203.0.113.7) banned until 1700000123456").2.2.2.1 (Or.inr rfl)).1
      1700000123456 (by decide),
    ((detectBan_sets_exact_or_12h "" 5 ⟨false, 0⟩ 418 (-1021)
        "Too many requests; please slow down.").2.2.2.1 (Or.inl rfl)).2 (by decide),
    (detectBan_sets_exact_or_12h "" 5 ⟨false, 0⟩ 429 (-1021)
        "Timestamp outside recvWindow").2.2.2.2.1 (by decide),
    (detectBan_sets_exact_or_12h "" 5 ⟨false, 0⟩ 429 (-1021) "").2.2.2.2.2⟩

/-- C4: the ban flag self-corrects.  For every state with `isBanned = true`
but `banUntil` in the past, the next `checkIfBanned` reports not banned and
resets the stored record, and `getBanStatus` reports `isBanned = false` —
with no explicit external reset. -/
theorem ban_flag_self_corrects (b : BanInfo) (now : Nat)
    (h1 : b.isBanned = true) (h2 : b.banUntil < now) :
    (checkIfBanned b now).1 = false ∧
    (checkIfBanned b now).2 = resetBanInfo ∧
    ((getBanStatus b now).1).isBanned = false := by
  simp [checkIfBanned, getBanStatus, h1, h2, resetBanInfo]

/-- C4 witness: a stale ban record at concrete values. -/
theorem ban_flag_self_corrects_witness :
    (⟨true, 5⟩ : BanInfo).isBanned = true ∧ (⟨true, 5⟩ : BanInfo).banUntil < 10 ∧
    ((checkIfBanned ⟨true, 5⟩ 10).1 = false ∧
     (checkIfBanned ⟨true, 5⟩ 10).2 = resetBanInfo ∧
     ((getBanStatus ⟨true, 5⟩ 10).1).isBanned = false) :=
  ⟨rfl, by decide, ban_flag_self_corrects ⟨true, 5⟩ 10 rfl (by decide)⟩

set_option maxRecDepth 40000 in
/-- C5 counterexample: the claim says the call fails with a rate-limit
timeout only if it is still not admitted after the forced eviction.  In the
code the rejection at line 212 is unconditional: with 400 fresh timestamps
the eviction drops 40 of them, leaving 360 < 400 so admission would now
succeed, yet the call is rejected anyway. -/
theorem rateLimit_timeout_rejects_despite_room :
    (rateLimitTimeoutBranch (List.replicate 400 5000)).2 = false ∧
    (canMakeRequest ⟨false, 0⟩ (rateLimitTimeoutBranch (List.replicate 400 5000)).1 5000).1 =
      true := by
  decide

/-- C5 amended: on exceeding the maximum wait the call always fails with the
rate-limit timeout; before failing, when more than `C - B - 10` timestamps
are recorded, the oldest `⌈length / 10⌉` of them are evicted (the retained
list is a sorted permutation of the recorded timestamps minus its least
initial segment), benefiting only future admission checks; with at most
`C - B - 10` recorded timestamps nothing is evicted. -/
theorem rateLimit_timeout_always_rejects (ts : List Nat) :
    (rateLimitTimeoutBranch ts).2 = false ∧
    (MAX_REQUESTS_PER_MINUTE - RATE_LIMIT_BUFFER - 10 < ts.length →
      (rateLimitTimeoutBranch ts).1 = (sortAsc ts).drop (ceilTenth ts.length) ∧
      (rateLimitTimeoutBranch ts).1.length = ts.length - ceilTenth ts.length ∧
      List.Sorted (· ≤ ·) (sortAsc ts) ∧ List.Perm (sortAsc ts) ts) ∧
    (ts.length ≤ MAX_REQUESTS_PER_MINUTE - RATE_LIMIT_BUFFER - 10 →
      (rateLimitTimeoutBranch ts).1 = ts) := by
  refine ⟨rfl, fun h => ?_, fun h => ?_⟩
  · have hperm : List.Perm (sortAsc ts) ts := List.perm_insertionSort _ ts
    refine ⟨by simp [rateLimitTimeoutBranch, h], ?_, List.sorted_insertionSort _ ts, hperm⟩
    simp [rateLimitTimeoutBranch, h, List.length_drop, hperm.length_eq]
  · simp [rateLimitTimeoutBranch, Nat.not_lt.mpr h]

set_option maxRecDepth 40000 in
/-- C5 witness: the concrete 400-timestamp instance. -/
theorem rateLimit_timeout_always_rejects_witness :
    MAX_REQUESTS_PER_MINUTE - RATE_LIMIT_BUFFER - 10 < (List.replicate 400 5000).length ∧
    (rateLimitTimeoutBranch (List.replicate 400 5000)).2 = false ∧
    (rateLimitTimeoutBranch (List.replicate 400 5000)).1 =
      (sortAsc (List.replicate 400 5000)).drop (ceilTenth (List.replicate 400 5000).length) :=
  ⟨by decide, (rateLimit_timeout_always_rejects _).1,
    ((rateLimit_timeout_always_rejects _).2.1 (by decide)).1⟩

/-- C6: with the socket open, for distinct listeners `l1 ≠ l2` on a key `K`
with no prior listeners: `subscribe K l1` sends exactly one wire SUBSCRIBE
for `K`; `subscribe K l2` sends nothing; `unsubscribe K l1` (with `l2` still
registered) sends nothing; `unsubscribe K l2` (removing the last listener)
sends exactly one wire UNSUBSCRIBE for `K`. -/
theorem subscribe_unsubscribe_wire_messages (st : TickerSubs) (K : String) (l1 l2 : Nat)
    (hopen : st.wsOpen = true) (habs : lookupL K st.subscribers = none) (hne : l1 ≠ l2) :
    (subscribe st K l1).2 = [WireMsg.sub [String.mk (toLowerL K.data) ++ "@ticker"]] ∧
    (subscribe (subscribe st K l1).1 K l2).2 = [] ∧
    (unsubscribe (subscribe (subscribe st K l1).1 K l2).1 K l1).2 = [] ∧
    (unsubscribe (unsubscribe (subscribe (subscribe st K l1).1 K l2).1 K l1).1 K l2).2 =
      [WireMsg.unsub [String.mk (toLowerL K.data) ++ "@ticker"]] := by
  have h1 : subscribe st K l1 =
      ({ st with subscribers := setL K [l1] st.subscribers },
       [WireMsg.sub [String.mk (toLowerL K.data) ++ "@ticker"]]) := by
    simp [subscribe, habs, hopen, setAdd]
  have h2 : subscribe (subscribe st K l1).1 K l2 =
      ({ st with subscribers := setL K [l1, l2] st.subscribers }, []) := by
    rw [h1]
    simp [subscribe, lookupL_setL_self, setAdd, setL_setL, hne, Ne.symm hne]
  have h3 : unsubscribe (subscribe (subscribe st K l1).1 K l2).1 K l1 =
      ({ st with subscribers := setL K [l2] st.subscribers }, []) := by
    rw [h2]
    simp [unsubscribe, lookupL_setL_self, setDelete, setL_setL, hne, Ne.symm hne]
  refine ⟨by rw [h1], by rw [h2], by rw [h3], ?_⟩
  rw [h3]
  simp [unsubscribe, lookupL_setL_self, setDelete, hopen]

/-- C6 witness: the wire-message pattern at a concrete key and listeners. -/
theorem subscribe_unsubscribe_wire_messages_witness :
    (⟨[], true⟩ : TickerSubs).wsOpen = true ∧
    lookupL "BTCUSDT" (⟨[], true⟩ : TickerSubs).subscribers = none ∧
    (0 : Nat) ≠ 1 ∧
    ((subscribe ⟨[], true⟩ "BTCUSDT" 0).2 =
        [WireMsg.sub [String.mk (toLowerL "BTCUSDT".data) ++ "@ticker"]] ∧
      (subscribe (subscribe ⟨[], true⟩ "BTCUSDT" 0).1 "BTCUSDT" 1).2 = [] ∧
      (unsubscribe (subscribe (subscribe ⟨[], true⟩ "BTCUSDT" 0).1 "BTCUSDT" 1).1
          "BTCUSDT" 0).2 = [] ∧
      (unsubscribe (unsubscribe (subscribe (subscribe ⟨[], true⟩ "BTCUSDT" 0).1
          "BTCUSDT" 1).1 "BTCUSDT" 0).1 "BTCUSDT" 1).2 =
        [WireMsg.unsub [String.mk (toLowerL "BTCUSDT".data) ++ "@ticker"]]) :=
  ⟨rfl, by decide, by decide,
    subscribe_unsubscribe_wire_messages ⟨[], true⟩ "BTCUSDT" 0 1 rfl (by decide) (by decide)⟩

/-- C7: a `placeOrder` call with `type = LIMIT` and a missing or non-positive
price fails with an invalid-parameters error (the price-validation message,
or the general parameter-validation message when an earlier field check fires
first) before any REST call: zero order calls and zero leverage calls. -/
theorem placeOrder_limit_requires_price (symbol : String) (side : Side) (q : ℚ)
    (price leverage : Option ℚ) (oracle : List (Except String Nat))
    (hprice : price = none ∨ ∃ p, price = some p ∧ p ≤ 0) :
    ((placeOrder true symbol side OrderType.LIMIT q price leverage oracle).outcome =
        Except.error "Error: Invalid order parameters" ∨
      (placeOrder true symbol side OrderType.LIMIT q price leverage oracle).outcome =
        Except.error "Error: Price is required for LIMIT orders") ∧
    (placeOrder true symbol side OrderType.LIMIT q price leverage oracle).orderCalls = 0 ∧
    (placeOrder true symbol side OrderType.LIMIT q price leverage oracle).leverageCalls = 0 := by
  have hpfalse : limitPriceInvalid OrderType.LIMIT price = true := by
    cases price with
    | none => rfl
    | some p =>
      rcases hprice with h | ⟨p', hp', hple⟩
      · cases h
      · have hpp : p = p' := by injection hp'
        subst hpp
        simp [limitPriceInvalid, hple]
  by_cases h1 : invalidBaseParams symbol q = true
  · refine ⟨Or.inl ?_, ?_, ?_⟩ <;>
      simp [placeOrder, h1] <;> decide
  · have h1f : invalidBaseParams symbol q = false := by
      cases hb : invalidBaseParams symbol q
      · rfl
      · exact absurd hb h1
    refine ⟨Or.inr ?_, ?_, ?_⟩ <;>
      simp [placeOrder, h1f, hpfalse] <;> decide

/-- C7 witness: a concrete LIMIT order without a price. -/
theorem placeOrder_limit_requires_price_witness :
    ((none : Option ℚ) = none ∨ ∃ p, (none : Option ℚ) = some p ∧ p ≤ 0) ∧
    (((placeOrder true "BTC/USDT" Side.BUY OrderType.LIMIT 1 none none []).outcome =
        Except.error "Error: Invalid order parameters" ∨
      (placeOrder true "BTC/USDT" Side.BUY OrderType.LIMIT 1 none none []).outcome =
        Except.error "Error: Price is required for LIMIT orders") ∧
      (placeOrder true "BTC/USDT" Side.BUY OrderType.LIMIT 1 none none []).orderCalls = 0 ∧
      (placeOrder true "BTC/USDT" Side.BUY OrderType.LIMIT 1 none none []).leverageCalls = 0) :=
  ⟨Or.inl rfl,
    placeOrder_limit_requires_price "BTC/USDT" Side.BUY 1 none none [] (Or.inl rfl)⟩

/-- C8: when the first order attempt fails with an error the retry loop
recognizes as non-transient (message containing `Invalid API-key`,
`Signature`, `Parameter` or `banned`), the error propagates immediately
(through the user-message translation of the outer catch) and exactly one
order network call is made. -/
theorem placeOrder_nontransient_no_retry (symbol : String) (side : Side)
    (type_ : OrderType) (q : ℚ) (price : Option ℚ) (e : String)
    (rest : List (Except String Nat))
    (hsym : ¬ symbol = "") (hq : ¬ q ≤ 0)
    (hp : type_ = OrderType.LIMIT → ∃ p, price = some p ∧ 0 < p)
    (hnt : nonTransient e = true) :
    (placeOrder true symbol side type_ q price none (Except.error e :: rest)).orderCalls = 1 ∧
    (placeOrder true symbol side type_ q price none (Except.error e :: rest)).outcome =
      Except.error (toUserMessage e) := by
  have h1 : invalidBaseParams symbol q = false := by
    simp [invalidBaseParams, hsym, hq]
  have h2 : limitPriceInvalid type_ price = false := by
    cases type_ with
    | MARKET => rfl
    | LIMIT =>
      obtain ⟨p, hpe, hpos⟩ := hp rfl
      subst hpe
      simp [limitPriceInvalid, not_le.mpr hpos]
  have hloop : orderLoop (Except.error e :: rest) 0 = (Except.error e, 1) := by
    simp [orderLoop, hnt]
  constructor <;> simp [placeOrder, h1, h2, hloop]

/-- C8 witness: a concrete signature error is not retried. -/
theorem placeOrder_nontransient_no_retry_witness :
    ¬ ("BTC/USDT" = "") ∧ ¬ ((1 : ℚ) ≤ 0) ∧
    nonTransient "Signature for this request is not valid." = true ∧
    ((placeOrder true "BTC/USDT" Side.BUY OrderType.MARKET 1 none none
        (Except.error "Signature for this request is not valid." ::
          [Except.ok 1, Except.ok 1])).orderCalls = 1 ∧
      (placeOrder true "BTC/USDT" Side.BUY OrderType.MARKET 1 none none
        (Except.error "Signature for this request is not valid." ::
          [Except.ok 1, Except.ok 1])).outcome =
        Except.error (toUserMessage "Signature for this request is not valid.")) :=
  ⟨by decide, by decide, by decide,
    placeOrder_nontransient_no_retry "BTC/USDT" Side.BUY OrderType.MARKET 1 none
      "Signature for this request is not valid." [Except.ok 1, Except.ok 1]
      (by decide) (by decide) (fun h => by cases h) (by decide)⟩

/-- C9 counterexample: the claim says that after `disconnect()` no
reconnection attempt fires.  `disconnect` stores no reconnect-timer handle
and clears none; worse, `ws.close()` leaves the `onclose` handler attached,
and when the close event fires, `handleReconnect` schedules a reconnection.
At a concrete connected state, after `disconnect` the close event is pending
and processing it schedules a reconnection attempt. -/
theorem disconnect_then_close_schedules_reconnect :
    (disconnect ⟨true, true, true, false, 0, false⟩).closeEventPending = true ∧
    (oncloseEvent (disconnect ⟨true, true, true, false, 0, false⟩)).reconnectScheduled =
      true := by
  decide

/-- C9 amended: `disconnect()` clears the keepalive ping timer and the
listen-key refresh timer; it cancels no scheduled reconnection (the pending
flag is untouched), and on a connected socket the close event it triggers
schedules a fresh reconnection via `handleReconnect`. -/
theorem disconnect_clears_ping_and_listenKey (st : ConnState) :
    (disconnect st).pingInterval = false ∧
    (disconnect st).listenKeyInterval = false ∧
    (disconnect st).reconnectScheduled = st.reconnectScheduled ∧
    (st.wsConnected = true →
      (disconnect st).closeEventPending = true ∧
      (oncloseEvent (disconnect st)).reconnectScheduled = true) := by
  refine ⟨rfl, rfl, rfl, fun h => ⟨by simp [disconnect, h], ?_⟩⟩
  by_cases h5 : st.reconnectAttempts < 5 <;>
    simp [oncloseEvent, handleReconnect, disconnect, h5]

/-- C9 witness: the amended statement at a concrete connected state. -/
theorem disconnect_clears_ping_and_listenKey_witness :
    (⟨true, true, true, false, 2, false⟩ : ConnState).wsConnected = true ∧
    ((disconnect ⟨true, true, true, false, 2, false⟩).pingInterval = false ∧
      (disconnect ⟨true, true, true, false, 2, false⟩).listenKeyInterval = false ∧
      (disconnect ⟨true, true, true, false, 2, false⟩).reconnectScheduled =
        (⟨true, true, true, false, 2, false⟩ : ConnState).reconnectScheduled ∧
      ((⟨true, true, true, false, 2, false⟩ : ConnState).wsConnected = true →
        (disconnect ⟨true, true, true, false, 2, false⟩).closeEventPending = true ∧
        (oncloseEvent (disconnect ⟨true, true, true, false, 2, false⟩)).reconnectScheduled =
          true)) :=
  ⟨rfl, disconnect_clears_ping_and_listenKey ⟨true, true, true, false, 2, false⟩⟩

/-- C10: `getOpenPositions` never rejects toward its direct caller — whenever
the inner account-information fetch fails with any error, the promise
returned to the caller resolves with the empty list.  The hypothesis states
that every waiter list stored for the `open_positions` key is empty, which
holds in every reachable state: a waiter is only ever appended to a list that
is already non-empty (the `length > 0` gate at line 1067), so no list ever
leaves the empty state. -/
theorem getOpenPositions_resolves_empty_on_error (pending : List (String × List Nat))
    (callerId : Nat) (e : String)
    (h : ∀ ws, lookupL "open_positions" pending = some ws → ws = []) :
    (getOpenPositions pending callerId (Except.error e)).1 =
      OpenPositionsOutcome.returned [] := by
  unfold getOpenPositions
  cases hl : lookupL "open_positions" pending with
  | none => simp [hl]
  | some ws =>
    have hws := h ws hl
    subst hws
    simp [hl]

/-- C10 witness: a failing account fetch at a concrete state resolves with
the empty list. -/
theorem getOpenPositions_resolves_empty_on_error_witness :
    (∀ ws, lookupL "open_positions" ([] : List (String × List Nat)) = some ws → ws = []) ∧
    (getOpenPositions ([] : List (String × List Nat)) 0
        (Except.error "Failed to fetch")).1 = OpenPositionsOutcome.returned [] := by
  constructor
  · intro ws h
    simp [lookupL] at h
  · exact getOpenPositions_resolves_empty_on_error [] 0 "Failed to fetch"
      (by intro ws h; simp [lookupL] at h)

end BinanceWS
